import Mathlib

/-! Formal model of the configuration-resolution and task/operation-dispatch
layer of the ultralytics_yolo11 repository: `get_config`,
`check_config_mismatch` and `entrypoint` from
`src/ultralytics/yolo/configs/__init__.py`, and the `YOLO` facade methods
(`train`, `val`, `resume`, `_guess_task_from_head`) from
`src/ultralytics/yolo/engine/model.py`.

Python dictionaries are embedded as insertion-ordered association lists over
scalar YAML values (`Val`).  External collaborators are passed in as explicit
function parameters: file loading (`yaml_load`) becomes a `String → Dict`
argument, checkpoint loading (`torch.load`) a lookup function, and the
`difflib.SequenceMatcher` similarity score a `String → String → ℚ` argument
(the repository only fixes the arguments `n = 3` and `cutoff = 0.6` it passes
to `difflib.get_close_matches`). -/

namespace Yolo

/-- A scalar configuration value: string, boolean, integer, or YAML null. -/
inductive Val where
  | str (s : String)
  | bool (b : Bool)
  | int (n : Int)
  | null
  deriving DecidableEq, Repr

/-- Python truthiness of a `Val` (`if v:`): empty string, `False`, `0` and
`None` are falsy, everything else is truthy. -/
def pyTruthy : Val → Bool
  | .str s => s != ""
  | .bool b => b
  | .int n => n != 0
  | .null => false

/-- A Python `dict` of configuration options: an insertion-ordered
association list with (by Python invariant) unique keys. -/
abbrev Dict := List (String × Val)

/-- `d[k]` / `d.get(k)`: the value at the first occurrence of key `k`. -/
def dictGet : Dict → String → Option Val
  | [], _ => none
  | p :: d, k => if p.1 = k then some p.2 else dictGet d k

/-- `k in d`: whether key `k` is present. -/
def dictHasKey (d : Dict) (k : String) : Bool :=
  (dictGet d k).isSome

/-- `d[k] = v`: replace the value in place if the key exists (Python dicts
keep insertion order on update), otherwise append the new pair. -/
def dictSet : Dict → String → Val → Dict
  | [], k, v => [(k, v)]
  | p :: d, k, v => if p.1 = k then (k, v) :: d else p :: dictSet d k v

/-- `{**d, **o}` (`get_config` line 72): the keys of `d` in order, each
carrying `o`'s value when `o` also binds it, followed by the keys of `o`
absent from `d`, in `o`'s order. -/
def dictMerge (d o : Dict) : Dict :=
  d.map (fun p => (p.1, (dictGet o p.1).getD p.2)) ++
    o.filter (fun p => !(dictHasKey d p.1))

/-- The list of override keys absent from the base configuration, in
override order (`check_config_mismatch` line 92:
`mismatched = [x for x in custom if x not in base]`). -/
def mismatchedKeys (base custom : Dict) : List String :=
  (custom.map Prod.fst).filter (fun k => !(dictHasKey base k))

/-- Insert `x` into an already descending-by-`key` list, keeping it
descending. -/
def insertDescBy (key : String → ℚ) (x : String) : List String → List String
  | [] => [x]
  | y :: ys => if key y < key x then x :: y :: ys else y :: insertDescBy key x ys

/-- Sort a list of candidate keys in descending `key` order (models
`heapq.nlargest` inside `difflib.get_close_matches`). -/
def sortDescBy (key : String → ℚ) : List String → List String
  | [] => []
  | x :: xs => insertDescBy key x (sortDescBy key xs)

/-- Modelled from the spec: Python's `difflib.get_close_matches(word,
possibilities, n, cutoff)` (standard library, external to this repository):
keep the possibilities whose similarity score against `word` reaches
`cutoff`, and return the `n` best of them.  The similarity score itself
(`SequenceMatcher.ratio`, "edit-distance-based closeness" per the spec) is
the abstract parameter `score`. -/
def getCloseMatches (score : String → String → ℚ) (word : String)
    (possibilities : List String) (n : Nat) (cutoff : ℚ) : List String :=
  (sortDescBy (fun x => score x word)
    (possibilities.filter (fun x => cutoff ≤ score x word))).take n

/-- `check_config_mismatch(base, custom)` (configs/__init__.py lines 82-96):
collect the custom keys absent from `base`; if any exist, report each with
`get_close_matches(option, base, 3, 0.6)` and `sys.exit()` (modelled as
`Except.error` carrying the report), else fall through (`Except.ok`). -/
def check_config_mismatch (score : String → String → ℚ) (base custom : Dict) :
    Except (List (String × List String)) Unit :=
  let mismatched := mismatchedKeys base custom
  if mismatched = [] then .ok ()
  else .error (mismatched.map
    (fun k => (k, getCloseMatches score k (base.map Prod.fst) 3 (6/10))))

/-- `get_config(config, overrides)` (configs/__init__.py lines 57-79): check
the overrides against the base keys, then return the shallow merge
`{**config, **overrides}` (the `SimpleNamespace` wrapper is identified with
the merged mapping). -/
def get_config (score : String → String → ℚ) (config overrides : Dict) :
    Except (List (String × List String)) Dict :=
  match check_config_mismatch score config overrides with
  | .error r => .error r
  | .ok () => .ok (dictMerge config overrides)

/- Lookup lemmas for the dictionary model. -/

theorem dictGet_append (d₁ d₂ : Dict) (k : String) :
    dictGet (d₁ ++ d₂) k =
      match dictGet d₁ k with
      | some v => some v
      | none => dictGet d₂ k := by
  induction d₁ with
  | nil => simp [dictGet]
  | cons p d ih =>
    by_cases h : p.1 = k <;> simp [dictGet, h, ih]

theorem dictGet_mapOverlay (d o : Dict) (k : String) :
    dictGet (d.map (fun p => (p.1, (dictGet o p.1).getD p.2))) k =
      match dictGet d k with
      | some v => some ((dictGet o k).getD v)
      | none => none := by
  induction d with
  | nil => simp [dictGet]
  | cons p d ih =>
    by_cases h : p.1 = k
    · subst h; simp [dictGet]
    · simp [dictGet, h, ih]

theorem dictGet_filterFresh (d o : Dict) (k : String) :
    dictGet (o.filter (fun p => !(dictHasKey d p.1))) k =
      if dictHasKey d k then none else dictGet o k := by
  induction o with
  | nil => simp [dictGet]
  | cons q o ih =>
    by_cases hq : dictHasKey d q.1
    · by_cases hk : q.1 = k
      · subst hk; simp [List.filter_cons, hq, ih]
      · simp [List.filter_cons, hq, ih, dictGet, hk]
    · by_cases hk : q.1 = k
      · subst hk; simp [List.filter_cons, hq, dictGet]
      · simp [List.filter_cons, hq, ih, dictGet, hk]

theorem dictGet_dictMerge (d o : Dict) (k : String) :
    dictGet (dictMerge d o) k =
      match dictGet o k with
      | some v => some v
      | none => dictGet d k := by
  unfold dictMerge
  rw [dictGet_append, dictGet_mapOverlay, dictGet_filterFresh]
  rcases hd : dictGet d k with _ | v <;>
    rcases ho : dictGet o k with _ | w <;>
      simp [dictHasKey, hd, ho, Option.getD]

theorem dictGet_dictSet_self (d : Dict) (k : String) (v : Val) :
    dictGet (dictSet d k v) k = some v := by
  induction d with
  | nil => simp [dictSet, dictGet]
  | cons p d ih =>
    by_cases h : p.1 = k <;> simp [dictSet, dictGet, h, ih]

theorem dictGet_dictSet_ne (d : Dict) (k k' : String) (v : Val)
    (h : k' ≠ k) : dictGet (dictSet d k v) k' = dictGet d k' := by
  induction d with
  | nil => simp [dictSet, dictGet, Ne.symm h]
  | cons p d ih =>
    by_cases hp : p.1 = k
    · subst hp; simp [dictSet, dictGet, Ne.symm h, h]
    · by_cases hk : p.1 = k' <;> simp [dictSet, dictGet, hp, hk, ih, h]

/- ===== The CLI dispatcher (`entrypoint`, configs/__init__.py 99-181) ===== -/

/-- Python `c in a` on a string: the character occurs in the character
sequence. -/
def strContains (a : String) (c : Char) : Bool :=
  a.data.contains c

/-- Whether the pattern `p` is an initial segment of `l` (Python
`a.startswith(p)` at the character level). -/
def listStartsWith : List Char → List Char → Bool
  | [], _ => true
  | _ :: _, [] => false
  | p :: ps, c :: cs => p == c && listStartsWith ps cs

/-- Python `a.startswith(pre)`. -/
def strStartsWith (a pre : String) : Bool :=
  listStartsWith pre.data a.data

/-- Python `a.split(sep)` for a single-character separator, on character
lists; always returns at least one (possibly empty) segment. -/
def splitOnChar (c : Char) : List Char → List (List Char)
  | [] => [[]]
  | x :: xs =>
    match splitOnChar c xs with
    | [] => [[]]
    | h :: t => if x == c then [] :: h :: t else (x :: h) :: t

/-- Python `a.split('=')[-1]`: the last `'='`-separated segment of a token
(used for the path in a `cfg=<path>` token, entrypoint line 139). -/
def lastSegment (a : String) : String :=
  ⟨(splitOnChar '=' a.data).getLastD []⟩

/-- The recognized task names (`tasks` tuple, entrypoint line 125). -/
def taskNames : List String := ["detect", "segment", "classify"]

/-- The recognized mode names (`modes` tuple, entrypoint line 126). -/
def modeNames : List String := ["train", "val", "predict", "export"]

/-- The keys of the `special_modes` dict (entrypoint lines 127-132). -/
def specialNames : List String := ["help", "checks", "version", "settings", "copy-config"]

/-- Outcome of classifying one CLI token (the body of the `for a in args`
loop before the per-iteration dispatch, entrypoint lines 137-162). -/
inductive TokenOut where
  | set (o : Dict)
  | special (cmd : String)
  | syntaxError (msg : String)
  | valueError
  deriving DecidableEq, Repr

/-- Classify one token `a` against the current `overrides`, mirroring the
source branch order: `'=' in a` (with the `cfg=` sub-case replacing the whole
override set by the loaded document minus its `cfg` key), then task names,
mode names, special commands, bare flag keys whose default is boolean
`False`, bare keys with a non-`False` default (missing `=`, a
`SyntaxError`), and finally unrecognized arguments.  `yamlLoad` stands for
`yaml_load` on the path of a `cfg=` token; a `key=value` token with more or
fewer than two segments makes the tuple unpacking on line 143 fail
(`valueError`). -/
def processToken (yamlLoad : String → Dict) (defaults overrides : Dict)
    (a : String) : TokenOut :=
  if strContains a '=' then
    if strStartsWith a "cfg=" then
      .set ((yamlLoad (lastSegment a)).filter (fun p => p.1 != "cfg"))
    else
      match splitOnChar '=' a.data with
      | [k, v] => .set (dictSet overrides ⟨k⟩ (.str ⟨v⟩))
      | _ => .valueError
  else if a ∈ taskNames then .set (dictSet overrides "task" (.str a))
  else if a ∈ modeNames then .set (dictSet overrides "mode" (.str a))
  else if a ∈ specialNames then .special a
  else
    match dictGet defaults a with
    | some (.bool false) => .set (dictSet overrides a (.bool true))
    | some _ => .syntaxError (a ++ " is a valid YOLO argument but is missing an = sign to set its value")
    | none => .syntaxError (a ++ " is not a valid YOLO argument.")

/-- Outcome of the per-iteration merge-and-dispatch block (entrypoint lines
164-181). -/
inductive DispatchOut where
  | invoked (task mode : String)
  | exit
  | attrError
  | syntaxError (msg : String)
  deriving DecidableEq, Repr

/-- The merge-and-dispatch block executed at the end of each loop iteration
(entrypoint lines 164-181): build `cfg = get_config(defaults, overrides)`
(whose key-mismatch check may `sys.exit()`), look the task up in the
task-to-module table (a missing `task` attribute is an `AttributeError`, an
unknown task a `SyntaxError`), look the mode up in the mode-to-function
table, and call the resolved function — recorded as `invoked task mode`. -/
def dispatchStep (score : String → String → ℚ) (defaults overrides : Dict) :
    DispatchOut :=
  match get_config score defaults overrides with
  | .error _ => .exit
  | .ok cfg =>
    match dictGet cfg "task" with
    | none => .attrError
    | some tv =>
      match tv with
      | .str t =>
        if t ∈ taskNames then
          match dictGet cfg "mode" with
          | none => .attrError
          | some mv =>
            match mv with
            | .str m =>
              if m ∈ modeNames then .invoked t m
              else .syntaxError ("yolo mode=" ++ m ++ " is invalid.")
            | _ => .syntaxError "yolo mode is invalid."
        else .syntaxError ("yolo task=" ++ t ++ " is invalid.")
      | _ => .syntaxError "yolo task is invalid."

/-- Outcome of a whole `entrypoint` run, accumulating the list of operation
invocations `(task, mode)` performed so far. -/
inductive RunOut where
  | done (invocations : List (String × String))
  | special (cmd : String) (invocations : List (String × String))
  | exit (invocations : List (String × String))
  | attrError (invocations : List (String × String))
  | syntaxError (msg : String) (invocations : List (String × String))
  | valueError (invocations : List (String × String))
  | helpOnly
  deriving DecidableEq, Repr

/-- The `for a in args` loop of `entrypoint` (lines 136-181).  Note that in
the source the merge-and-dispatch block (lines 164-181) is indented inside
the loop body, so it runs once per classified token, not once after the
loop. -/
def runTokens (score : String → String → ℚ) (yamlLoad : String → Dict)
    (defaults : Dict) : Dict → List (String × String) → List String → RunOut
  | _, invs, [] => .done invs
  | overrides, invs, a :: rest =>
    match processToken yamlLoad defaults overrides a with
    | .special c => .special c invs
    | .syntaxError m => .syntaxError m invs
    | .valueError => .valueError invs
    | .set o =>
      match dispatchStep score defaults o with
      | .exit => .exit invs
      | .attrError => .attrError invs
      | .syntaxError m => .syntaxError m invs
      | .invoked t m => runTokens score yamlLoad defaults o (invs ++ [(t, m)]) rest

/-- `entrypoint()` (configs/__init__.py lines 99-181): first the dead
"no arguments passed" guard `if len(sys.argv) == -1` (print help and
return), then the token loop.  `argv` is the process argument vector and
`tokens` the dispatched token list (stubbed to `['train']` in the source;
per the spec the token source is an external collaborator). -/
def entrypoint (argv : List String) (score : String → String → ℚ)
    (yamlLoad : String → Dict) (defaults : Dict) (tokens : List String) :
    RunOut :=
  if (argv.length : Int) = -1 then .helpOnly
  else runTokens score yamlLoad defaults [] [] tokens

/-- The invocations recorded in a run outcome. -/
def RunOut.invocations : RunOut → List (String × String)
  | .done i => i
  | .special _ i => i
  | .exit i => i
  | .attrError i => i
  | .syntaxError _ i => i
  | .valueError i => i
  | .helpOnly => []

/- ===== The model facade (`class YOLO`, engine/model.py) ===== -/

/-- Python `s.lower()`, characterwise. -/
def strLower (s : String) : String :=
  ⟨s.data.map Char.toLower⟩

/-- The keys of `MODEL_MAP` (model.py lines 16-25), in source order. -/
def modelMapKeys : List String := ["classify", "detect", "segment"]

/-- `YOLO._guess_task_from_head(head)` (model.py lines 169-183): three
sequential (non-exclusive) `if` tests of `head.lower()` against the fixed
synonym lists, then `if not task: raise`. -/
def guess_task_from_head (head : String) : Except String String :=
  let task : Option String := none
  let task := if strLower head ∈ ["classify", "classifier", "cls", "fc"] then some "classify" else task
  let task := if strLower head ∈ ["detect"] then some "detect" else task
  let task := if strLower head ∈ ["segment"] then some "segment" else task
  match task with
  | none => .error "task or model not recognized! Please refer the docs at : "
  | some t => .ok t

/-- Python truthiness of an optional string argument (`if task:` /
`if model:`): `None` and the empty string are falsy. -/
def pyTruthyStrOpt : Option String → Bool
  | some s => s != ""
  | none => false

/-- `YOLO.resume(task, model)` (model.py lines 149-167).  `ckptTask m`
stands for `torch.load(m)["train_args"]["task"]` (`none` when the checkpoint
lacks the key, a `KeyError`); loading with `model=None` fails in
`torch.load`.  If `task` is truthy it is validated against `MODEL_MAP` and
used as-is — the checkpoint is consulted only in the `else` branch.  On
success the result is the resolved lowered task together with the `resume`
override value `model if model else True` handed to the new trainer (the
`MODEL_MAP[task.lower()]` lookup in `_guess_ops_from_task` is a `KeyError`
for an unmapped checkpoint task). -/
def resume (ckptTask : String → Option String) (task : Option String)
    (model : Option String) : Except String (String × Val) :=
  let step : Except String String :=
    if pyTruthyStrOpt task then
      match task with
      | some s =>
        if strLower s ∈ modelMapKeys then .ok s
        else .error ("unrecognised task - " ++ s)
      | none => .error "unreachable: truthy task is present"
    else
      match model with
      | some m =>
        match ckptTask m with
        | some t => .ok t
        | none => .error "KeyError: train_args task"
      | none => .error "TypeError: torch.load(None)"
  match step with
  | .error e => .error e
  | .ok t =>
    if strLower t ∈ modelMapKeys then
      .ok (strLower t, if pyTruthyStrOpt model then .str (model.getD "") else .bool true)
    else .error "KeyError: MODEL_MAP"

/-- Errors raised by `YOLO.train` (model.py lines 124-147). -/
inductive TrainError where
  | notInitialized
  | missingDataset
  deriving DecidableEq, Repr

/-- The override set `YOLO.train` works with (model.py lines 135-138): the
keyword arguments, unless a truthy `cfg` is among them, in which case the
loaded external document replaces them wholesale.  `yamlLoad` stands for
`yaml_load(check_yaml(...))` applied to the `cfg` value. -/
def trainEffectiveOverrides (yamlLoad : Val → Dict) (kwargs : Dict) : Dict :=
  match dictGet kwargs "cfg" with
  | some v => if pyTruthy v then yamlLoad v else kwargs
  | none => kwargs

/-- `YOLO.train(**kwargs)` (model.py lines 124-147): raise if neither model
nor checkpoint is bound; take the effective overrides (kwargs, or the
external `cfg` document); force `task` and `mode`; raise "dataset not
provided" when `overrides.get("data")` is falsy (note: the check reads only
the overrides — the defaults are merged later, inside the trainer).  On
success the trainer receives the final override set. -/
def train (yamlLoad : Val → Dict) (modelBound ckptBound : Bool)
    (task : String) (kwargs : Dict) : Except TrainError Dict :=
  if !modelBound && !ckptBound then .error .notInitialized
  else
    let overrides := trainEffectiveOverrides yamlLoad kwargs
    let overrides := dictSet (dictSet overrides "task" (.str task)) "mode" (.str "train")
    if !(pyTruthy ((dictGet overrides "data").getD .null)) then .error .missingDataset
    else .ok overrides

/-- Errors raised by `YOLO.val` (model.py lines 113-122): the
"model not initialized!" exception, or the `sys.exit()` escape from
`check_config_mismatch` inside `get_config` (carrying its report). -/
inductive ValError where
  | notInitialized
  | configExit (report : List (String × List String))
  deriving DecidableEq, Repr

/-- `YOLO.val(data, **kwargs)` (model.py lines 113-122): raise before
anything else when no model is bound (so no validator is ever constructed);
otherwise resolve `args = get_config(DEFAULT_CONFIG, kwargs)` and force
`args.data = data` and `args.task = self.task`.  On success the result is
the configuration the validator is constructed with. -/
def val (score : String → String → ℚ) (modelBound : Bool) (task : String)
    (defaults : Dict) (data : Val) (kwargs : Dict) : Except ValError Dict :=
  if !modelBound then .error .notInitialized
  else
    match get_config score defaults kwargs with
    | .error r => .error (.configExit r)
    | .ok args => .ok (dictSet (dictSet args "data" data) "task" (.str task))

/- ===== Helper lemmas ===== -/

theorem length_insertDescBy (key : String → ℚ) (x : String) (l : List String) :
    (insertDescBy key x l).length = l.length + 1 := by
  induction l with
  | nil => simp [insertDescBy]
  | cons y ys ih =>
    by_cases h : key y < key x <;> simp [insertDescBy, h, ih]

theorem mem_insertDescBy (key : String → ℚ) (x a : String) (l : List String) :
    a ∈ insertDescBy key x l ↔ a = x ∨ a ∈ l := by
  induction l with
  | nil => simp [insertDescBy]
  | cons y ys ih =>
    by_cases h : key y < key x
    · simp [insertDescBy, h]
    · simp [insertDescBy, h, ih]
      tauto

theorem mem_sortDescBy (key : String → ℚ) (a : String) (l : List String) :
    a ∈ sortDescBy key l ↔ a ∈ l := by
  induction l with
  | nil => simp [sortDescBy]
  | cons x xs ih =>
    simp [sortDescBy, mem_insertDescBy, ih]

theorem getCloseMatches_length_le (score : String → String → ℚ)
    (word : String) (possibilities : List String) (n : Nat) (cutoff : ℚ) :
    (getCloseMatches score word possibilities n cutoff).length ≤ n := by
  unfold getCloseMatches
  exact (List.length_take _ _).le.trans (Nat.min_le_left _ _)

theorem mem_getCloseMatches (score : String → String → ℚ) (word s : String)
    (possibilities : List String) (n : Nat) (cutoff : ℚ)
    (h : s ∈ getCloseMatches score word possibilities n cutoff) :
    s ∈ possibilities ∧ cutoff ≤ score s word := by
  unfold getCloseMatches at h
  have h' := List.mem_of_mem_take h
  rw [mem_sortDescBy] at h'
  have := List.mem_filter.mp h'
  refine ⟨this.1, ?_⟩
  simpa using this.2

theorem listStartsWith_contains (p l : List Char) (c : Char)
    (h : listStartsWith p l = true) (hc : p.contains c = true) :
    l.contains c = true := by
  induction p generalizing l with
  | nil => simp at hc
  | cons x ps ih =>
    cases l with
    | nil => simp [listStartsWith] at h
    | cons y ys =>
      simp [listStartsWith] at h
      simp [List.contains_cons] at hc ⊢
      rcases hc with hc | hc
      · left; rw [← h.1]; exact hc
      · right
        have := ih ys h.2 (by simpa using hc)
        simpa using this

theorem dictGet_filterKeyNe (d : Dict) (c k : String) :
    dictGet (d.filter (fun p => p.1 != c)) k =
      if k = c then none else dictGet d k := by
  induction d with
  | nil => simp [dictGet]
  | cons q d ih =>
    rw [List.filter_cons]
    by_cases hq : q.1 = c
    · rw [if_neg (by simp [hq]), ih]
      by_cases hk : k = c
      · simp [hk]
      · have hqk : ¬ q.1 = k := by
          rw [hq]
          exact fun hh => hk hh.symm
        simp [hk, dictGet, hqk]
    · rw [if_pos (by simp [hq])]
      by_cases hqk : q.1 = k
      · have hk : ¬ k = c := by
          intro hh
          exact hq (hqk.trans hh)
        simp [dictGet, hqk, hk]
      · simp [dictGet, hqk, ih]

theorem runTokens_done_length (score : String → String → ℚ)
    (yamlLoad : String → Dict) (defaults : Dict) :
    ∀ (ts : List String) (o : Dict) (invs invs' : List (String × String)),
      runTokens score yamlLoad defaults o invs ts = .done invs' →
      invs'.length = invs.length + ts.length := by
  intro ts
  induction ts with
  | nil =>
    intro o invs invs' h
    simp [runTokens] at h
    simp [h]
  | cons a rest ih =>
    intro o invs invs' h
    simp only [runTokens] at h
    split at h
    · simp at h
    · simp at h
    · simp at h
    · split at h
      · simp at h
      · simp at h
      · simp at h
      · have := ih _ _ _ h
        simp at this
        simp [List.length_cons]
        omega

/- ===== Claim theorems ===== -/

/-- C1: evaluation of `YOLO.resume` at the failing input
`resume(task="detect", model="ckpt.pt")` with a checkpoint whose
`train_args.task` is `"segment"`.  The code resolves the task to `"detect"`
from the `task` argument and never reads the checkpoint metadata, although
the claim (and the method's own docstring, "`model` takes the higher
precederence") requires the checkpoint's `"segment"` to win when a
checkpoint path is supplied. -/
theorem c1_resume_ignores_checkpoint_when_task_given :
    resume (fun _ => some "segment") (some "detect") (some "ckpt.pt") =
      .ok ("detect", .str "ckpt.pt") := by
  rfl

/-- C2 counterexample: a dispatch of the two-token sequence
`["detect", "train"]` (no special command involved) against defaults binding
`task` and `mode` performs TWO operation invocations, because the
merge-and-dispatch block (entrypoint lines 164-181) is indented inside the
`for a in args` loop; the claim says exactly one operation is invoked per
dispatch. -/
theorem c2_counterexample_two_invocations :
    runTokens (fun _ _ => 1) (fun _ => [])
        [("task", Val.str "detect"), ("mode", Val.str "train")] [] []
        ["detect", "train"] =
      .done [("detect", "train"), ("detect", "train")] ∧
    (RunOut.invocations (runTokens (fun _ _ => 1) (fun _ => [])
        [("task", Val.str "detect"), ("mode", Val.str "train")] [] []
        ["detect", "train"])).length = 2 := by
  exact ⟨rfl, rfl⟩

/-- C2 (amended): the dispatcher invokes exactly one operation per processed
token, not one per dispatch: a token-loop run that completes normally (no
special command, no error) performs as many operation invocations as there
are tokens. -/
theorem c2_one_invocation_per_token (score : String → String → ℚ)
    (yamlLoad : String → Dict) (defaults : Dict) (tokens : List String)
    (invs : List (String × String))
    (h : runTokens score yamlLoad defaults [] [] tokens = .done invs) :
    invs.length = tokens.length := by
  have := runTokens_done_length score yamlLoad defaults tokens [] [] invs h
  simpa using this

/-- C2 witness: the amended theorem applied to the concrete two-token run of
the counterexample. -/
theorem c2_one_invocation_per_token_witness :
    ([("detect", "train"), ("detect", "train")] : List (String × String)).length =
      (["detect", "train"] : List String).length :=
  c2_one_invocation_per_token (fun _ _ => 1) (fun _ => [])
    [("task", Val.str "detect"), ("mode", Val.str "train")]
    ["detect", "train"] [("detect", "train"), ("detect", "train")] rfl

/-- C10: the "no arguments passed" guard of `entrypoint` (line 114) tests
`len(sys.argv) == -1`, which is false for every argument vector, so the
help-and-return branch is unreachable and the dispatcher always proceeds to
token processing. -/
theorem c10_help_branch_unreachable (argv : List String)
    (score : String → String → ℚ) (yamlLoad : String → Dict)
    (defaults : Dict) (tokens : List String) :
    (decide ((argv.length : Int) = -1)) = false ∧
    entrypoint argv score yamlLoad defaults tokens =
      runTokens score yamlLoad defaults [] [] tokens := by
  have hne : ¬ ((argv.length : Int) = -1) := by omega
  constructor
  · simp [hne]
  · unfold entrypoint
    rw [if_neg hne]

/-- C3: `check_config_mismatch` lets the merge proceed exactly when every
override key is a default key; otherwise it reports exactly the offending
keys (in override order), each paired with at most 3 near-matching default
keys, all of which reach the similarity threshold 0.6, and terminates the
invocation (`sys.exit()`, modelled by the `Except.error` outcome). -/
theorem c3_mismatch_check_iff_and_report (score : String → String → ℚ)
    (base custom : Dict) :
    (check_config_mismatch score base custom = .ok () ↔
      ∀ k ∈ custom.map Prod.fst, dictHasKey base k = true) ∧
    (∀ report, check_config_mismatch score base custom = .error report →
      report.map Prod.fst = mismatchedKeys base custom ∧
      ∀ p ∈ report, p.2.length ≤ 3 ∧
        ∀ s ∈ p.2, s ∈ base.map Prod.fst ∧ (6/10 : ℚ) ≤ score s p.1) := by
  unfold check_config_mismatch
  by_cases hm : mismatchedKeys base custom = []
  · rw [if_pos hm]
    constructor
    · simp only [true_iff]
      intro k hk
      by_contra hbad
      have : k ∈ mismatchedKeys base custom := by
        unfold mismatchedKeys
        rw [List.mem_filter]
        exact ⟨hk, by simp [Bool.eq_false_iff.mpr hbad]⟩
      rw [hm] at this
      simp at this
    · intro report hrep
      exact absurd hrep (by simp)
  · rw [if_neg hm]
    constructor
    · constructor
      · intro hcontra
        exact absurd hcontra (by simp)
      · intro hall
        exfalso
        apply hm
        unfold mismatchedKeys
        rw [List.filter_eq_nil_iff]
        intro k hk
        simp [hall k hk]
    · intro report hrep
      have hrep' : report = (mismatchedKeys base custom).map
          (fun k => (k, getCloseMatches score k (base.map Prod.fst) 3 (6/10))) := by
        injection hrep with hh
        exact hh.symm
      subst hrep'
      constructor
      · rw [List.map_map]
        generalize mismatchedKeys base custom = l
        induction l with
        | nil => rfl
        | cons x xs ih => simp [ih]
      · intro p hp
        rw [List.mem_map] at hp
        obtain ⟨k, _, hpk⟩ := hp
        subst hpk
        refine ⟨getCloseMatches_length_le _ _ _ _ _, ?_⟩
        intro s hs
        have := mem_getCloseMatches score k s (base.map Prod.fst) 3 (6/10) hs
        exact ⟨this.1, this.2⟩

/-- C3 witness: the theorem at a concrete base/override pair whose override
key is a default key, so the check passes. -/
theorem c3_mismatch_check_witness :
    check_config_mismatch (fun _ _ => 1) [("epochs", Val.int 3), ("data", Val.null)]
      [("epochs", Val.int 5)] = .ok () :=
  (c3_mismatch_check_iff_and_report (fun _ _ => 1)
    [("epochs", Val.int 3), ("data", Val.null)] [("epochs", Val.int 5)]).1.mpr
    (by decide)

/-- C4: when the key-mismatch check passes, `get_config` returns the shallow
key overlay of the overrides onto the defaults: every default key maps to
its override value when overridden (verbatim — values are opaque scalars,
never deep-merged) and to its default value otherwise. -/
theorem c4_merge_is_shallow_overlay (score : String → String → ℚ)
    (D O merged : Dict) (h : get_config score D O = .ok merged) :
    ∀ k, dictHasKey D k = true →
      dictGet merged k =
        if dictHasKey O k then dictGet O k else dictGet D k := by
  have hmerged : merged = dictMerge D O := by
    unfold get_config at h
    rcases hc : check_config_mismatch score D O with _ | u
    · rw [hc] at h
      exact absurd h (by simp)
    · rw [hc] at h
      injection h with hh
      exact hh.symm
  subst hmerged
  intro k _
  rw [dictGet_dictMerge]
  rcases ho : dictGet O k with _ | w
  · simp [dictHasKey, ho]
  · simp [dictHasKey, ho]

/-- C4 witness: the theorem at a concrete default/override pair where the
single key is overridden. -/
theorem c4_merge_is_shallow_overlay_witness :
    dictGet [("a", Val.str "2")] "a" =
      if dictHasKey [("a", Val.str "2")] "a"
      then dictGet [("a", Val.str "2")] "a"
      else dictGet [("a", Val.str "1")] "a" :=
  c4_merge_is_shallow_overlay (fun _ _ => 1) [("a", Val.str "1")]
    [("a", Val.str "2")] [("a", Val.str "2")] rfl "a" rfl

/-- C5: `_guess_task_from_head` is case-insensitive over the three fixed
synonym sets — every string lowering to one of "classify", "classifier",
"cls", "fc" maps to classify, to "detect" maps to detect, to "segment" maps
to segment — and every string outside all three sets raises the
unrecognized-task exception. -/
theorem c5_guess_task_synonyms_total (s : String) :
    (strLower s ∈ ["classify", "classifier", "cls", "fc"] →
      guess_task_from_head s = .ok "classify") ∧
    (strLower s = "detect" → guess_task_from_head s = .ok "detect") ∧
    (strLower s = "segment" → guess_task_from_head s = .ok "segment") ∧
    (strLower s ∉ ["classify", "classifier", "cls", "fc", "detect", "segment"] →
      guess_task_from_head s =
        .error "task or model not recognized! Please refer the docs at : ") := by
  refine ⟨?_, ?_, ?_, ?_⟩
  · intro h
    simp only [List.mem_cons, List.not_mem_nil, or_false] at h
    have hd : strLower s ≠ "detect" := by
      rcases h with h | h | h | h <;> simp [h]
    have hs : strLower s ≠ "segment" := by
      rcases h with h | h | h | h <;> simp [h]
    rcases h with h | h | h | h <;> simp [guess_task_from_head, h, hd, hs]
  · intro h
    simp [guess_task_from_head, h]
  · intro h
    simp [guess_task_from_head, h]
  · intro h
    simp only [List.mem_cons, List.not_mem_nil, or_false, not_or] at h
    obtain ⟨h1, h2, h3, h4, h5, h6⟩ := h
    simp [guess_task_from_head, h1, h2, h3, h4, h5, h6]

/-- C5 witness: the mixed-case head identifier "FC" maps to classify. -/
theorem c5_guess_task_synonyms_total_witness :
    guess_task_from_head "FC" = .ok "classify" :=
  (c5_guess_task_synonyms_total "FC").1 (by decide)

/-- C6 counterexample: a `train` call with a model bound and a `data` option
PRESENT in the overrides — but with the falsy value `""` — still fails with
the missing-dataset error, because line 141 tests `not overrides.get("data")`
(Python truthiness), not key presence; so "fails exactly when no `data`
option is present" is false. -/
theorem c6_counterexample_data_present_still_fails :
    train (fun _ => []) true false "detect" [("data", Val.str "")] =
      .error .missingDataset ∧
    dictHasKey [("data", Val.str "")] "data" = true := by
  exact ⟨rfl, rfl⟩

/-- C6 (amended): with a model or checkpoint bound, `train` fails with the
missing-dataset error exactly when the `data` key is absent or carries a
Python-falsy value in the supplied overrides — or in the external `cfg`
document when a truthy `cfg` override is given; the defaults are not merged
before this check. -/
theorem c6_missing_dataset_iff_falsy (yamlLoad : Val → Dict)
    (modelBound ckptBound : Bool) (task : String) (kwargs : Dict)
    (hBound : (modelBound || ckptBound) = true) :
    train yamlLoad modelBound ckptBound task kwargs = .error .missingDataset ↔
      pyTruthy ((dictGet (trainEffectiveOverrides yamlLoad kwargs) "data").getD .null)
        = false := by
  have hguard : (!modelBound && !ckptBound) = false := by
    rcases modelBound <;> rcases ckptBound <;> simp_all
  have hdata :
      dictGet (dictSet (dictSet (trainEffectiveOverrides yamlLoad kwargs)
          "task" (.str task)) "mode" (.str "train")) "data" =
        dictGet (trainEffectiveOverrides yamlLoad kwargs) "data" := by
    rw [dictGet_dictSet_ne _ _ _ _ (by decide), dictGet_dictSet_ne _ _ _ _ (by decide)]
  rcases hpt : pyTruthy ((dictGet (trainEffectiveOverrides yamlLoad kwargs) "data").getD .null) with _ | _
  · simp [train, hguard, hdata, hpt]
  · simp [train, hguard, hdata, hpt]

/-- C6 witness: the amended theorem at a call with no `data` key at all. -/
theorem c6_missing_dataset_iff_falsy_witness :
    train (fun _ => []) true false "detect" [] = .error .missingDataset ↔
      pyTruthy ((dictGet (trainEffectiveOverrides (fun _ => ([] : Dict)) []) "data").getD .null)
        = false :=
  c6_missing_dataset_iff_falsy (fun _ => []) true false "detect" [] rfl

/-- C7: processing a `cfg=<path>` token replaces the entire accumulated
override set with the loaded document minus any `cfg` key it contains: the
result does not depend on the previous overrides at all, and its keys are
exactly the document's keys other than `cfg`. -/
theorem c7_cfg_token_replaces_overrides (yamlLoad : String → Dict)
    (defaults overrides : Dict) (a : String)
    (h : strStartsWith a "cfg=" = true) :
    processToken yamlLoad defaults overrides a =
      .set ((yamlLoad (lastSegment a)).filter (fun p => p.1 != "cfg")) ∧
    ∀ k, dictHasKey ((yamlLoad (lastSegment a)).filter (fun p => p.1 != "cfg")) k = true ↔
      (dictHasKey (yamlLoad (lastSegment a)) k = true ∧ k ≠ "cfg") := by
  constructor
  · have hc : strContains a '=' = true := by
      unfold strContains
      exact listStartsWith_contains "cfg=".data a.data '='
        (by exact h) (by decide)
    unfold processToken
    rw [if_pos hc, if_pos h]
  · intro k
    unfold dictHasKey
    rw [dictGet_filterKeyNe]
    by_cases hk : k = "cfg"
    · simp [hk]
    · simp [hk]

/-- C7 witness: the theorem at the concrete token `cfg=custom.yaml`, with
previously accumulated overrides and a loaded document containing a `cfg`
key: the result keeps none of the old overrides and drops the document's
`cfg` entry. -/
theorem c7_cfg_token_replaces_overrides_witness :
    processToken (fun _ => [("a", Val.int 1), ("cfg", Val.str "x")]) []
      [("old", Val.int 5)] "cfg=custom.yaml" = .set [("a", Val.int 1)] := by
  have h := (c7_cfg_token_replaces_overrides
    (fun _ => [("a", Val.int 1), ("cfg", Val.str "x")]) [] [("old", Val.int 5)]
    "cfg=custom.yaml" (by decide)).1
  rw [h]
  rfl

/-- C8: a bare token (no `=`, not a task, mode or special command) that is a
defaults key is treated as a flag set to true when its default value is
boolean `False`, and raises a syntax error (a value is required) when its
default value is anything else. -/
theorem c8_bare_key_flag_or_error (yamlLoad : String → Dict)
    (defaults overrides : Dict) (a : String) (v : Val)
    (h1 : strContains a '=' = false) (h2 : a ∉ taskNames) (h3 : a ∉ modeNames)
    (h4 : a ∉ specialNames) (h5 : dictGet defaults a = some v) :
    (v = .bool false →
      processToken yamlLoad defaults overrides a =
        .set (dictSet overrides a (.bool true))) ∧
    (v ≠ .bool false →
      processToken yamlLoad defaults overrides a =
        .syntaxError (a ++ " is a valid YOLO argument but is missing an = sign to set its value")) := by
  constructor
  · intro hv
    subst hv
    simp [processToken, h1, h2, h3, h4, h5]
  · intro hv
    rcases v with s | b | n | _
    · simp [processToken, h1, h2, h3, h4, h5]
    · rcases b with _ | _
      · exact absurd rfl hv
      · simp [processToken, h1, h2, h3, h4, h5]
    · simp [processToken, h1, h2, h3, h4, h5]
    · simp [processToken, h1, h2, h3, h4, h5]

/-- C8 witness: the theorem at the bare token `show` with
`defaults["show"] == False`, which becomes the flag override
`show = True`. -/
theorem c8_bare_key_flag_or_error_witness :
    processToken (fun _ => []) [("show", Val.bool false)] [] "show" =
      .set [("show", Val.bool true)] := by
  have h := (c8_bare_key_flag_or_error (fun _ => []) [("show", Val.bool false)]
    [] "show" (Val.bool false) (by decide) (by decide) (by decide) (by decide)
    rfl).1 rfl
  rw [h]
  rfl

/-- C9: `YOLO.val` fails with the not-initialized error whenever no model is
bound (returning before any validator is constructed); with a model bound
and the merge succeeding, the configuration handed to the validator carries
the supplied `data` argument and the facade's bound task. -/
theorem c9_val_guard_and_forced_fields (score : String → String → ℚ)
    (modelBound : Bool) (task : String) (defaults : Dict) (data : Val)
    (kwargs : Dict) :
    (modelBound = false →
      val score modelBound task defaults data kwargs = .error .notInitialized) ∧
    (∀ args, get_config score defaults kwargs = .ok args →
      val score true task defaults data kwargs =
        .ok (dictSet (dictSet args "data" data) "task" (.str task)) ∧
      dictGet (dictSet (dictSet args "data" data) "task" (.str task)) "data" = some data ∧
      dictGet (dictSet (dictSet args "data" data) "task" (.str task)) "task" = some (.str task)) := by
  constructor
  · intro h
    subst h
    rfl
  · intro args h
    refine ⟨?_, ?_, ?_⟩
    · simp [val, h]
    · rw [dictGet_dictSet_ne _ _ _ _ (by decide), dictGet_dictSet_self]
    · rw [dictGet_dictSet_self]

/-- C9 witness: the theorem at a concrete bound-model call. -/
theorem c9_val_guard_and_forced_fields_witness :
    val (fun _ _ => 1) true "detect" [("mode", Val.str "train")] (Val.str "coco.yaml") [] =
      .ok (dictSet (dictSet [("mode", Val.str "train")] "data" (Val.str "coco.yaml"))
        "task" (Val.str "detect")) :=
  ((c9_val_guard_and_forced_fields (fun _ _ => 1) true "detect"
    [("mode", Val.str "train")] (Val.str "coco.yaml") []).2
    [("mode", Val.str "train")] rfl).1

end Yolo
